import Mathlib

/-!
Verification of the audio/recording/lesson pipeline of the English-tutoring
application (`Apprendre-l-anglais-avec-l-IA`).

Byte values are modelled as `Nat` with an explicit `< 256` bound where it
matters; PCM sample amplitudes are modelled as `ℚ` (every value produced by the
decoder is the dyadic rational `v / 32768`, exactly representable); fallible
operations return `Except`/`Option`; the React component state is modelled as
explicit state-passing functions, with the platform recorder sessions tracked
by numeric ids.
-/

namespace AudioUtils

/-- Modelled from the spec: the file `src/services/audioUtils.ts` (exporting
`decode`, `encode`, `decodeAudioData`, `playAudioBuffer`, `blobToBase64`) is
missing from the repository snapshot — only its importers are present.  The
Base64 Binary Codec is modelled from spec §4.1: a standard base64 codec whose
`decode` fails with `FormatError` on invalid alphabet or padding. -/
inductive FormatError where
  | invalid
deriving DecidableEq

/-- The standard base64 alphabet, table position = sextet value. -/
def b64Alphabet : List Char :=
  ['A','B','C','D','E','F','G','H','I','J','K','L','M',
   'N','O','P','Q','R','S','T','U','V','W','X','Y','Z',
   'a','b','c','d','e','f','g','h','i','j','k','l','m',
   'n','o','p','q','r','s','t','u','v','w','x','y','z',
   '0','1','2','3','4','5','6','7','8','9','+','/']

/-- Character of the alphabet at a sextet value (values are always `< 64`). -/
def sextetToChar (n : Nat) : Char := b64Alphabet.getD n '='

/-- Sextet value of an alphabet character; `none` for a character outside the
alphabet (in particular for the padding character). -/
def decodeChar (c : Char) : Option Nat := b64Alphabet.findIdx? (fun x => x = c)

/-- Modelled from the spec (§4.1): `encode(bytes) -> text`, total on any byte
sequence including the empty one; bytes are taken three at a time, each group
becoming four alphabet characters, with `=` padding closing a final group of
one or two bytes. -/
def encodeBytes : List Nat → List Char
  | [] => []
  | [a] =>
      [sextetToChar (a / 4), sextetToChar (a % 4 * 16), '=', '=']
  | [a, b] =>
      [sextetToChar (a / 4), sextetToChar (a % 4 * 16 + b / 16),
       sextetToChar (b % 16 * 4), '=']
  | a :: b :: c :: rest =>
      sextetToChar (a / 4) :: sextetToChar (a % 4 * 16 + b / 16) ::
      sextetToChar (b % 16 * 4 + c / 64) :: sextetToChar (c % 64) ::
      encodeBytes rest

/-- Modelled from the spec (§4.1): `decode(text) -> bytes`, processing four
characters at a time, failing with `FormatError` on a character outside the
alphabet, on a length that is not a multiple of four, or on padding that does
not close the text. -/
def decodeChars : List Char → Except FormatError (List Nat)
  | [] => Except.ok []
  | c0 :: c1 :: c2 :: c3 :: rest =>
      match decodeChar c0, decodeChar c1 with
      | some s0, some s1 =>
          if c2 = '=' then
            if c3 = '=' then
              if rest = [] then Except.ok [s0 * 4 + s1 / 16]
              else Except.error FormatError.invalid
            else Except.error FormatError.invalid
          else
            match decodeChar c2 with
            | some s2 =>
                if c3 = '=' then
                  if rest = [] then
                    Except.ok [s0 * 4 + s1 / 16, s1 % 16 * 16 + s2 / 4]
                  else Except.error FormatError.invalid
                else
                  match decodeChar c3 with
                  | some s3 =>
                      (decodeChars rest).map
                        (fun bs => (s0 * 4 + s1 / 16) :: (s1 % 16 * 16 + s2 / 4) ::
                                   (s2 % 4 * 64 + s3) :: bs)
                  | none => Except.error FormatError.invalid
            | none => Except.error FormatError.invalid
      | _, _ => Except.error FormatError.invalid
  | _ => Except.error FormatError.invalid

/-- `encode` on a byte list, producing the transport string. -/
def encode (bytes : List Nat) : String := String.mk (encodeBytes bytes)

/-- `decode` on the transport string. -/
def decode (text : String) : Except FormatError (List Nat) := decodeChars text.data

/-- Modelled from the spec (§4.2, §7): the error kind of the PCM Frame
Decoder. -/
inductive DecodeError where
  | invalidInput
deriving DecidableEq

/-- Spec §3: an ordered sequence of PCM sample values plus a channel count and
a sample rate. -/
structure SampleBuffer where
  sampleRate : Nat
  channelCount : Nat
  samples : List ℚ
deriving DecidableEq

/-- Value of the little-endian signed 16-bit integer with low byte `lo` and
high byte `hi`. -/
def toInt16 (lo hi : Nat) : Int :=
  let v := (lo + 256 * hi) % 65536
  if v < 32768 then (v : Int) else (v : Int) - 65536

/-- Modelled from the spec (§4.2): the flat little-endian int16 stream read two
bytes at a time, each value mapped to the sample `v / 32768`; a trailing odd
byte is dropped. -/
def pcmSamples : List Nat → List ℚ
  | [] => []
  | [_] => []
  | lo :: hi :: rest => ((toInt16 lo hi : ℚ) / 32768) :: pcmSamples rest

/-- Modelled from the spec (§4.2): `decodeAudioData(bytes, sampleRate,
channelCount) -> SampleBuffer`, failing with `DecodeError` if
`channelCount < 1` or `bytes` is empty. -/
def decodeAudioData (bytes : List Nat) (sampleRate channelCount : Nat) :
    Except DecodeError SampleBuffer :=
  if channelCount < 1 ∨ bytes = [] then Except.error DecodeError.invalidInput
  else
    Except.ok { sampleRate := sampleRate, channelCount := channelCount,
                samples := pcmSamples bytes }

end AudioUtils

namespace GeminiService

/-- Failure kinds of a service call in `src/services/geminiService.ts`: a
rejected API promise, a JavaScript `TypeError` raised while reading the
response, a `JSON.parse` failure, or the explicit `throw new Error(...)`
statements of the service. -/
inductive CallError where
  | remote
  | typeError
  | parseError
  | analysisFailed
deriving DecidableEq

/-- Denotation of JavaScript `Promise.all` on two settled promises
(`src/services/geminiService.ts:127`): the join succeeds exactly when both
promises fulfil, and rejects when either rejects. -/
def promiseAll2 {ε α β : Type} : Except ε α → Except ε β → Except ε (α × β)
  | Except.error e, _ => Except.error e
  | Except.ok _, Except.error e => Except.error e
  | Except.ok a, Except.ok b => Except.ok (a, b)

/-- The definition-call response as used by `generateVisualVocab`: only its
(possibly absent) `text` field is read. -/
structure DefResponse where
  text : Option String
deriving DecidableEq

/-- `inlineData` of an image part. -/
structure ImgInline where
  data : String
deriving DecidableEq

/-- One part of the image response; `inlineData` may be absent. -/
structure ImgPart where
  inlineData : Option ImgInline
deriving DecidableEq

/-- `content` of an image candidate; its `parts` array may be absent. -/
structure ImgContent where
  parts : Option (List ImgPart)
deriving DecidableEq

/-- An image-response candidate. -/
structure ImgCandidate where
  content : ImgContent
deriving DecidableEq

/-- The image-call response; its `candidates` array may be absent. -/
structure ImgResponse where
  candidates : Option (List ImgCandidate)
deriving DecidableEq

/-- The loop of `generateVisualVocab` (`geminiService.ts:132`): the data URL of
the first part carrying `inlineData`, or the initial empty string. -/
def firstInlineUrl : List ImgPart → String
  | [] => ""
  | p :: ps =>
      match p.inlineData with
      | some d => "data:image/png;base64," ++ d.data
      | none => firstInlineUrl ps

/-- Image extraction of `generateVisualVocab` (`geminiService.ts:130`): an
absent `candidates` array skips extraction (empty URL); a present but empty
`candidates` array makes `candidates[0].content` a read on `undefined`, a
thrown `TypeError` that rejects the composed promise; absent `parts` skips
extraction. -/
def extractImageUrl (r : ImgResponse) : Except CallError String :=
  match r.candidates with
  | none => Except.ok ""
  | some [] => Except.error CallError.typeError
  | some (c0 :: _) =>
      match c0.content.parts with
      | none => Except.ok ""
      | some parts => Except.ok (firstInlineUrl parts)

/-- The object parsed from the definition call's JSON text; every field may be
absent (the response schema does not mark them required, and `JSON.parse` is
not validated). -/
structure TextData where
  word : Option String
  definition : Option String
  exampleSentence : Option String
  translation : Option String
deriving DecidableEq

/-- JavaScript template-literal interpolation of a possibly-`undefined` string:
`undefined` prints as the text `undefined`. -/
def jsTemplate (o : Option String) : String := o.getD "undefined"

/-- The JSON text of an empty object, the fallback of
`JSON.parse(defResponse.text || ...)`. -/
def emptyJsonObject : String := "\x7b\x7d"

/-- The `VocabCard` of `src/types.ts` as built by `generateVisualVocab`; the
`example` field of the source is renamed `exampleSentence` (keyword) and kept
optional since the code copies `textData.example` unchecked. -/
structure VocabCard where
  word : String
  definition : String
  exampleSentence : Option String
  imageUrl : String
deriving DecidableEq

/-- `generateVisualVocab` (`geminiService.ts:97`): the two remote calls are
modelled by their settled outcomes `defR` and `imgR`, joined by `Promise.all`;
`parseVocab` models `JSON.parse` at the definition text. -/
def generateVisualVocab (parseVocab : String → Except CallError TextData)
    (word : String) (defR : Except CallError DefResponse)
    (imgR : Except CallError ImgResponse) : Except CallError VocabCard :=
  match promiseAll2 defR imgR with
  | Except.error e => Except.error e
  | Except.ok (defResponse, imgResponse) =>
      match extractImageUrl imgResponse with
      | Except.error e => Except.error e
      | Except.ok imageUrl =>
          match parseVocab (defResponse.text.getD emptyJsonObject) with
          | Except.error e => Except.error e
          | Except.ok textData =>
              Except.ok
                { word := textData.word.getD word,
                  exampleSentence := textData.exampleSentence,
                  imageUrl := imageUrl,
                  definition :=
                    jsTemplate textData.definition ++ " \n\n(Traduction: " ++
                    jsTemplate textData.translation ++ ")" }

/-- The `{score, feedback}` record returned by the pronunciation check
(`geminiService.ts:152`); the response schema types `score` as a number and
`feedback` as a string. -/
structure ScoreFeedback where
  score : ℚ
  feedback : String
deriving DecidableEq

/-- The pronunciation-call response: only its (possibly absent) `text` field is
read. -/
structure PronResponse where
  text : Option String
deriving DecidableEq

/-- `checkPronunciation` (`geminiService.ts:152`): on a fulfilled response with
text, returns `JSON.parse(response.text)` unchanged (modelled by
`parseScore`); without text it throws `Error("Analysis failed")`; a rejected
call propagates. -/
def checkPronunciation (parseScore : String → Except CallError ScoreFeedback)
    (resp : Except CallError PronResponse) : Except CallError ScoreFeedback :=
  match resp with
  | Except.error e => Except.error e
  | Except.ok r =>
      match r.text with
      | some t => parseScore t
      | none => Except.error CallError.analysisFailed

/-- `inlineData` of a TTS part; its `data` field may be absent. -/
structure TTSInline where
  data : Option String
deriving DecidableEq

/-- A TTS response part. -/
structure TTSPart where
  inlineData : Option TTSInline
deriving DecidableEq

/-- `content` of a TTS candidate. -/
structure TTSContent where
  parts : Option (List TTSPart)
deriving DecidableEq

/-- A TTS response candidate. -/
structure TTSCandidate where
  content : Option TTSContent
deriving DecidableEq

/-- The TTS response. -/
structure TTSResponse where
  candidates : Option (List TTSCandidate)
deriving DecidableEq

/-- The optional chain
`response.candidates?.[0]?.content?.parts?.[0]?.inlineData?.data` of
`generateSpeech` (`geminiService.ts:207`). -/
def ttsBase64Audio (r : TTSResponse) : Option String :=
  (((((r.candidates.bind List.head?).bind TTSCandidate.content).bind
      TTSContent.parts).bind List.head?).bind TTSPart.inlineData).bind
    TTSInline.data

/-- `generateSpeech` (`geminiService.ts:192`): the whole body is wrapped in
`try`/`catch`, the `catch` returning `null`; on success the code returns
`base64Audio || null`, so an absent chain value — and also an empty string,
which is falsy — becomes `null`. -/
def generateSpeech (resp : Except CallError TTSResponse) : Option String :=
  match resp with
  | Except.error _ => none
  | Except.ok r =>
      match ttsBase64Audio r with
      | some s => if s = "" then none else some s
      | none => none

/-- One run of `generateSpeech` against a remote oracle giving the outcome of
the `n`-th request: the body issues exactly one `generateContent` request, so
the run consumes outcome `0` only, and the pair records the request count. -/
def generateSpeechRun (remote : Nat → Except CallError TTSResponse) :
    Option String × Nat :=
  (generateSpeech (remote 0), 1)

end GeminiService

namespace VisualDict

/-- Error kinds of the recording capturer lifecycle (spec §7). -/
inductive CaptureError where
  | stateError
  | deviceError
deriving DecidableEq

/-- The recording-related state of `VisualDictView`
(`src/components/VisualDictView.tsx`): the `mediaRecorderRef` (recorder ids are
naturals handed out by `nextId`), the `isRecording` flag, the chunk
accumulator, and — modelling the platform — the set of recorder sessions that
have been started and whose stream tracks were never stopped. -/
structure RecState where
  mediaRecorder : Option Nat
  isRecording : Bool
  chunks : List (List Nat)
  activeRecorders : List Nat
  pronunciationResult : Option GeminiService.ScoreFeedback
  nextId : Nat
deriving DecidableEq

/-- The component's initial state: no recorder ever created, Idle. -/
def initialState : RecState :=
  { mediaRecorder := none, isRecording := false, chunks := [],
    activeRecorders := [], pronunciationResult := none, nextId := 0 }

/-- `startRecording` (`VisualDictView.tsx:56`): when the microphone is granted,
a fresh `MediaRecorder` is created and started, the ref is overwritten, the
chunk accumulator reset, and `isRecording` set — with no check of the current
state; when `getUserMedia` fails the `catch` merely logs, so in neither case
does any error propagate to the caller (the second component is always
`none`). -/
def startRecording (micOk : Bool) (s : RecState) : RecState × Option CaptureError :=
  if micOk then
    ({ mediaRecorder := some s.nextId, isRecording := true, chunks := [],
       activeRecorders := s.nextId :: s.activeRecorders,
       pronunciationResult := none, nextId := s.nextId + 1 }, none)
  else (s, none)

/-- `stopRecording` (`VisualDictView.tsx:92`): guarded by
`mediaRecorderRef.current && isRecording`; inside the guard the recorder is
stopped (its `onstop` flattens the accumulated chunks into one blob — the
second component lists the produced AudioBlobs), its stream tracks are stopped,
and `isRecording` is cleared; outside the guard nothing at all happens. -/
def stopRecording (s : RecState) : RecState × List (List Nat) :=
  match s.mediaRecorder, s.isRecording with
  | some r, true =>
      ({ s with isRecording := false,
                activeRecorders := s.activeRecorders.erase r },
       [s.chunks.flatten])
  | _, _ => (s, [])

end VisualDict

namespace ChatView

/-- The recording-related state of `ChatView` (the chat component concatenated
into `src/types.ts`): recorder ref, `isRecording` flag, chunk accumulator, the
platform sessions whose tracks were never stopped, the duration timer, and the
audio messages sent by the recorder's `onstop` handler. -/
structure ChatRecState where
  mediaRecorder : Option Nat
  isRecording : Bool
  chunks : List (List Nat)
  activeRecorders : List Nat
  timer : Option Nat
  sentAudioMessages : List (List Nat)
deriving DecidableEq

/-- `stopRecording(shouldSend)` of the chat view (`src/types.ts:231`): under
the `mediaRecorderRef.current && isRecording` guard, the code branches on
`shouldSend` — but both branches are the identical call
`mediaRecorderRef.current.stop()`, whose `onstop` handler flattens the chunks
and sends them as an audio message — then stops the stream tracks; outside the
guard nothing happens to the recorder.  In all cases `isRecording` is cleared
and the timer stopped. -/
def chatStopRecording (shouldSend : Bool) (s : ChatRecState) : ChatRecState :=
  let s1 :=
    match s.mediaRecorder, s.isRecording with
    | some r, true =>
        let afterStop :=
          if shouldSend then
            { s with sentAudioMessages := s.sentAudioMessages ++ [s.chunks.flatten] }
          else
            { s with sentAudioMessages := s.sentAudioMessages ++ [s.chunks.flatten] }
        { afterStop with activeRecorders := afterStop.activeRecorders.erase r }
    | _, _ => s
  { s1 with isRecording := false, timer := none }

end ChatView

namespace LessonView

/-- `QuizQuestion` of `src/types.ts`. -/
structure QuizQuestion where
  question : String
  options : List String
  correctAnswer : String
  explanation : String
deriving DecidableEq

/-- `GeneratedLesson` of `src/types.ts`. -/
structure GeneratedLesson where
  content : String
  quiz : List QuizQuestion
deriving DecidableEq

/-- `LessonResult` of `src/types.ts`; `userAnswers : Record<number, string>` is
modelled as an association list. -/
structure LessonResult where
  id : String
  timestamp : Nat
  topic : String
  level : String
  score : Nat
  totalQuestions : Nat
  lessonData : GeneratedLesson
  userAnswers : List (Nat × String)
deriving DecidableEq

/-- The quiz-related state of `LessonView` (concatenated into `src/types.ts`),
with `localStore` modelling the `lesson_history` key of `localStorage`. -/
structure LessonState where
  lesson : Option GeneratedLesson
  quizAnswers : List (Nat × String)
  showResults : Bool
  isSaved : Bool
  selectedTopic : String
  selectedLevel : String
  history : List LessonResult
  localStore : List LessonResult
deriving DecidableEq

/-- Lookup of `quizAnswers[idx]`. -/
def answerAt (answers : List (Nat × String)) (i : Nat) : Option String :=
  (answers.find? (fun p => p.1 == i)).map Prod.snd

/-- The score loop of `checkAnswers` (`src/types.ts:594`): one point per
question whose recorded answer equals its `correctAnswer`. -/
def quizScore (quiz : List QuizQuestion) (answers : List (Nat × String)) : Nat :=
  (quiz.enum.filter (fun p => answerAt answers p.1 == some p.2.correctAnswer)).length

/-- `checkAnswers` (`src/types.ts:589`): always sets `showResults`; when a
lesson is loaded and `isSaved` is still false, computes the score, prepends a
new `LessonResult` to the history, writes the updated history to storage and
sets `isSaved`.  `now` models `Date.now()`. -/
def checkAnswers (now : Nat) (s : LessonState) : LessonState :=
  let s1 := { s with showResults := true }
  match s1.lesson with
  | some lesson =>
      if s1.isSaved then s1
      else
        let score := quizScore lesson.quiz s1.quizAnswers
        let newResult : LessonResult :=
          { id := toString now, timestamp := now, topic := s1.selectedTopic,
            level := s1.selectedLevel, score := score,
            totalQuestions := lesson.quiz.length, lessonData := lesson,
            userAnswers := s1.quizAnswers }
        let updated := newResult :: s1.history
        { s1 with history := updated, localStore := updated, isSaved := true }
  | none => s1

end LessonView

namespace AudioUtils

theorem decodeChar_sextetToChar : ∀ n, n < 64 → decodeChar (sextetToChar n) = some n := by
  decide

theorem sextetToChar_ne_pad : ∀ n, n < 64 → sextetToChar n ≠ '=' := by
  decide

theorem decodeChars_encodeBytes (b : List Nat) (hb : ∀ x ∈ b, x < 256) :
    decodeChars (encodeBytes b) = Except.ok b := by
  induction b using encodeBytes.induct with
  | case1 => simp [encodeBytes, decodeChars]
  | case2 a =>
      have ha : a < 256 := hb a (by simp)
      have h0 := decodeChar_sextetToChar (a / 4) (by omega)
      have h1 := decodeChar_sextetToChar (a % 4 * 16) (by omega)
      simp only [encodeBytes, decodeChars, h0, h1, if_pos rfl]
      simp
      omega
  | case3 a b =>
      have ha : a < 256 := hb a (by simp)
      have hbb : b < 256 := hb b (by simp)
      have h0 := decodeChar_sextetToChar (a / 4) (by omega)
      have h1 := decodeChar_sextetToChar (a % 4 * 16 + b / 16) (by omega)
      have h2 := decodeChar_sextetToChar (b % 16 * 4) (by omega)
      have h2ne := sextetToChar_ne_pad (b % 16 * 4) (by omega)
      simp only [encodeBytes, decodeChars, h0, h1, h2, if_neg h2ne, if_pos rfl]
      simp
      omega
  | case4 a b c rest ih =>
      have ha : a < 256 := hb a (by simp)
      have hbb : b < 256 := hb b (by simp)
      have hc : c < 256 := hb c (by simp)
      have hrest : ∀ x ∈ rest, x < 256 := by
        intro x hx; exact hb x (by simp [hx])
      have h0 := decodeChar_sextetToChar (a / 4) (by omega)
      have h1 := decodeChar_sextetToChar (a % 4 * 16 + b / 16) (by omega)
      have h2 := decodeChar_sextetToChar (b % 16 * 4 + c / 64) (by omega)
      have h3 := decodeChar_sextetToChar (c % 64) (by omega)
      have h2ne := sextetToChar_ne_pad (b % 16 * 4 + c / 64) (by omega)
      have h3ne := sextetToChar_ne_pad (c % 64) (by omega)
      simp only [encodeBytes, decodeChars, h0, h1, h2, h3, if_neg h2ne, if_neg h3ne,
        ih hrest, Except.map]
      have e1 : a / 4 * 4 + (a % 4 * 16 + b / 16) / 16 = a := by omega
      have e2 : (a % 4 * 16 + b / 16) % 16 * 16 + (b % 16 * 4 + c / 64) / 4 = b := by omega
      have e3 : (b % 16 * 4 + c / 64) % 4 * 64 + c % 64 = c := by omega
      simp [e1, e2, e3]

theorem pcmSamples_length (l : List Nat) : (pcmSamples l).length = l.length / 2 := by
  induction l using pcmSamples.induct with
  | case1 => simp [pcmSamples]
  | case2 x => simp [pcmSamples]
  | case3 lo hi rest ih =>
      simp only [pcmSamples, List.length_cons, ih]
      omega

theorem pcmSamples_get (l : List Nat) :
    ∀ i lo hi, l[2 * i]? = some lo → l[2 * i + 1]? = some hi →
      (pcmSamples l)[i]? = some ((toInt16 lo hi : ℚ) / 32768) := by
  induction l using pcmSamples.induct with
  | case1 =>
      intro i lo hi h1 _
      simp at h1
  | case2 x =>
      intro i lo hi _ h2
      have hlen : ([x] : List Nat).length ≤ 2 * i + 1 := by simp
      rw [List.getElem?_eq_none hlen] at h2
      exact absurd h2 (by simp)
  | case3 lo' hi' rest ih =>
      intro i lo hi h1 h2
      cases i with
      | zero =>
          simp at h1 h2
          subst h1; subst h2
          simp [pcmSamples]
      | succ j =>
          have e1 : 2 * (j + 1) = 2 * j + 1 + 1 := by ring
          have e2 : 2 * (j + 1) + 1 = 2 * j + 1 + 1 + 1 := by ring
          rw [e1] at h1
          rw [e2] at h2
          simp only [List.getElem?_cons_succ] at h1 h2
          simpa [pcmSamples] using ih j lo hi h1 h2

end AudioUtils

/-- C1: for every byte sequence `b` (bytes, i.e. values `< 256`), including the
empty sequence, the Base64 codec satisfies the round-trip law
`decode (encode b) = b`. -/
theorem c1_base64_round_trip (b : List Nat) (hb : ∀ x ∈ b, x < 256) :
    AudioUtils.decode (AudioUtils.encode b) = Except.ok b := by
  unfold AudioUtils.decode AudioUtils.encode
  exact AudioUtils.decodeChars_encodeBytes b hb

/-- C1 witness: the round-trip law evaluated at the empty sequence and at the
concrete byte sequence `[77, 97, 110, 255, 0]`. -/
theorem c1_base64_round_trip_witness :
    AudioUtils.decode (AudioUtils.encode []) = Except.ok [] ∧
    AudioUtils.decode (AudioUtils.encode [77, 97, 110, 255, 0]) =
      Except.ok [77, 97, 110, 255, 0] :=
  ⟨c1_base64_round_trip [] (by simp),
   c1_base64_round_trip [77, 97, 110, 255, 0] (by decide)⟩

/-- C2 counterexample: the claim quantifies over every byte sequence including
the empty one, but on the empty input the decoder fails with `DecodeError`
instead of producing a zero-sample buffer. -/
theorem c2_pcm_decode_counterexample :
    AudioUtils.decodeAudioData [] 24000 1 =
      Except.error AudioUtils.DecodeError.invalidInput := rfl

/-- C2 (amended): for every nonempty byte sequence and channel count at least
one, `decodeAudioData` succeeds, interprets the bytes as a flat little-endian
int16 stream producing exactly `len / 2` samples (trailing odd byte discarded),
and maps the int16 value at position `i` to the sample `v / 32768`. -/
theorem c2_pcm_decode (bytes : List Nat) (r ch : Nat)
    (hb : bytes ≠ []) (hc : 1 ≤ ch) :
    AudioUtils.decodeAudioData bytes r ch =
      Except.ok { sampleRate := r, channelCount := ch,
                  samples := AudioUtils.pcmSamples bytes } ∧
    (AudioUtils.pcmSamples bytes).length = bytes.length / 2 ∧
    (∀ i lo hi, bytes[2 * i]? = some lo → bytes[2 * i + 1]? = some hi →
      (AudioUtils.pcmSamples bytes)[i]? =
        some ((AudioUtils.toInt16 lo hi : ℚ) / 32768)) := by
  refine ⟨?_, AudioUtils.pcmSamples_length bytes, AudioUtils.pcmSamples_get bytes⟩
  unfold AudioUtils.decodeAudioData
  rw [if_neg]
  push_neg
  exact ⟨by omega, hb⟩

/-- C2 witness: the boundary inputs — `[0x00, 0x80]` decodes to the single
sample exactly `-1`, `[0xFF, 0x7F]` to `32767 / 32768`, and the odd-length
input `[1, 2, 3]` to exactly one sample. -/
theorem c2_pcm_decode_witness :
    AudioUtils.decodeAudioData [0, 128] 24000 1 =
      Except.ok { sampleRate := 24000, channelCount := 1,
                  samples := AudioUtils.pcmSamples [0, 128] } ∧
    AudioUtils.pcmSamples [0, 128] = [(-1 : ℚ)] ∧
    AudioUtils.pcmSamples [255, 127] = [(32767 : ℚ) / 32768] ∧
    (AudioUtils.pcmSamples [1, 2, 3]).length = 1 := by
  refine ⟨(c2_pcm_decode [0, 128] 24000 1 (by simp) (by omega)).1, ?_, ?_, ?_⟩
  · norm_num [AudioUtils.pcmSamples, AudioUtils.toInt16]
  · norm_num [AudioUtils.pcmSamples, AudioUtils.toInt16]
  · simpa using (c2_pcm_decode [1, 2, 3] 24000 1 (by simp) (by omega)).2.1

/-- C3: in `generateVisualVocab` the definition call and the image call are
joined by `Promise.all`; if either settled outcome is a rejection, the composed
operation rejects and no partial `VocabCard` is returned. -/
theorem c3_visual_vocab_joined
    (parseVocab : String → Except GeminiService.CallError GeminiService.TextData)
    (word : String) (defR : Except GeminiService.CallError GeminiService.DefResponse)
    (imgR : Except GeminiService.CallError GeminiService.ImgResponse)
    (h : (∃ e, defR = Except.error e) ∨ (∃ e, imgR = Except.error e)) :
    (∃ e, GeminiService.generateVisualVocab parseVocab word defR imgR =
      Except.error e) ∧
    (∀ card, GeminiService.generateVisualVocab parseVocab word defR imgR ≠
      Except.ok card) := by
  have hj : ∃ e, GeminiService.promiseAll2 defR imgR =
      (Except.error e : Except GeminiService.CallError _) := by
    rcases h with ⟨e, he⟩ | ⟨e, he⟩
    · subst he; exact ⟨e, rfl⟩
    · subst he
      cases defR with
      | error e2 => exact ⟨e2, rfl⟩
      | ok a => exact ⟨e, rfl⟩
  obtain ⟨e, he⟩ := hj
  unfold GeminiService.generateVisualVocab
  rw [he]
  exact ⟨⟨e, rfl⟩, fun card h2 => by simp at h2⟩

/-- C3 witness: a rejected definition call joined with a fulfilled image call
cannot produce a `VocabCard`. -/
theorem c3_visual_vocab_joined_witness :
    GeminiService.generateVisualVocab
        (fun _ => Except.ok { word := none, definition := none,
                              exampleSentence := none, translation := none })
        "cat" (Except.error GeminiService.CallError.remote)
        (Except.ok { candidates := none }) ≠
      Except.ok { word := "cat", definition := "", exampleSentence := none,
                  imageUrl := "" } :=
  (c3_visual_vocab_joined _ "cat" _ _
    (Or.inl ⟨GeminiService.CallError.remote, rfl⟩)).2 _

/-- C4: calling `stopRecording` while the capturer is Idle — in particular on
the initial state, before any `startRecording` — changes nothing, raises no
error and produces no AudioBlob. -/
theorem c4_stop_idle_noop (s : VisualDict.RecState) (h : s.isRecording = false) :
    VisualDict.stopRecording s = (s, []) := by
  unfold VisualDict.stopRecording
  rw [h]
  cases s.mediaRecorder <;> rfl

/-- C4 witness: `stopRecording` on the initial state is a no-op producing no
blob. -/
theorem c4_stop_idle_noop_witness :
    VisualDict.stopRecording VisualDict.initialState = (VisualDict.initialState, []) :=
  c4_stop_idle_noop VisualDict.initialState rfl

/-- C5 counterexample: starting from the initial state, one successful
`startRecording` leaves the capturer Recording; a second `startRecording` in
that state is not rejected (the error component is `none`, in particular not
`StateError`) and leaves two recorder sessions active — recorders `1` and `0`
both hold their stream. -/
theorem c5_counterexample :
    ((VisualDict.startRecording true VisualDict.initialState).1.isRecording = true) ∧
    (VisualDict.startRecording true
        (VisualDict.startRecording true VisualDict.initialState).1).2 = none ∧
    (VisualDict.startRecording true
        (VisualDict.startRecording true VisualDict.initialState).1).1.activeRecorders =
      [1, 0] :=
  ⟨rfl, rfl, rfl⟩

/-- C5 (amended): `startRecording` while the capturer is already Recording is
not rejected with `StateError` — no error is reported at all; it silently
starts a second concurrent session: the ref is overwritten with a fresh
recorder while every previously active recorder (whose stream is never
stopped) stays active, so the active-session count grows by one. -/
theorem c5_start_while_recording (s : VisualDict.RecState) (r : Nat)
    (h : s.isRecording = true) (hr : r ∈ s.activeRecorders) :
    (VisualDict.startRecording true s).2 = none ∧
    (VisualDict.startRecording true s).1.isRecording = true ∧
    (VisualDict.startRecording true s).1.mediaRecorder = some s.nextId ∧
    r ∈ (VisualDict.startRecording true s).1.activeRecorders ∧
    s.nextId ∈ (VisualDict.startRecording true s).1.activeRecorders ∧
    (VisualDict.startRecording true s).1.activeRecorders.length =
      s.activeRecorders.length + 1 := by
  simp [VisualDict.startRecording, hr]

/-- C5 witness: the amended statement evaluated in the state reached by one
`startRecording` from the initial state, where recorder `0` is active. -/
theorem c5_start_while_recording_witness :
    (VisualDict.startRecording true
        (VisualDict.startRecording true VisualDict.initialState).1).2 = none ∧
    (VisualDict.startRecording true
        (VisualDict.startRecording true VisualDict.initialState).1).1.isRecording = true ∧
    (VisualDict.startRecording true
        (VisualDict.startRecording true VisualDict.initialState).1).1.mediaRecorder =
      some (VisualDict.startRecording true VisualDict.initialState).1.nextId ∧
    0 ∈ (VisualDict.startRecording true
        (VisualDict.startRecording true VisualDict.initialState).1).1.activeRecorders ∧
    (VisualDict.startRecording true VisualDict.initialState).1.nextId ∈
      (VisualDict.startRecording true
        (VisualDict.startRecording true VisualDict.initialState).1).1.activeRecorders ∧
    (VisualDict.startRecording true
        (VisualDict.startRecording true VisualDict.initialState).1).1.activeRecorders.length =
      (VisualDict.startRecording true VisualDict.initialState).1.activeRecorders.length + 1 :=
  c5_start_while_recording _ 0 rfl (by decide)

/-- C6: `decodeAudioData` fails with `DecodeError` exactly when the channel
count is below one or the byte sequence is empty; on every other input it
succeeds with a `SampleBuffer`. -/
theorem c6_decode_error_iff (bytes : List Nat) (r ch : Nat) :
    (AudioUtils.decodeAudioData bytes r ch =
        Except.error AudioUtils.DecodeError.invalidInput ↔
      (ch < 1 ∨ bytes = [])) ∧
    (¬(ch < 1 ∨ bytes = []) →
      AudioUtils.decodeAudioData bytes r ch =
        Except.ok { sampleRate := r, channelCount := ch,
                    samples := AudioUtils.pcmSamples bytes }) := by
  by_cases h : ch < 1 ∨ bytes = []
  · refine ⟨⟨fun _ => h, fun _ => ?_⟩, fun hn => absurd h hn⟩
    unfold AudioUtils.decodeAudioData
    rw [if_pos h]
  · refine ⟨⟨fun he => ?_, fun hh => absurd hh h⟩, fun _ => ?_⟩
    · unfold AudioUtils.decodeAudioData at he
      rw [if_neg h] at he
      exact absurd he (by simp)
    · unfold AudioUtils.decodeAudioData
      rw [if_neg h]

/-- C6 witness: channel count zero fails, and the two-byte mono input
succeeds. -/
theorem c6_decode_error_iff_witness :
    AudioUtils.decodeAudioData [7] 24000 0 =
      Except.error AudioUtils.DecodeError.invalidInput ∧
    AudioUtils.decodeAudioData [7, 8] 24000 1 =
      Except.ok { sampleRate := 24000, channelCount := 1,
                  samples := AudioUtils.pcmSamples [7, 8] } :=
  ⟨(c6_decode_error_iff [7] 24000 0).1.mpr (Or.inl (by omega)),
   (c6_decode_error_iff [7, 8] 24000 1).2 (by simp)⟩

/-- C7 counterexample: `checkPronunciation` performs no range validation — a
fulfilled response whose JSON parses to score `11` is returned unchanged, and
`11` is outside the range `0` to `10`. -/
theorem c7_counterexample :
    GeminiService.checkPronunciation
        (fun _ => Except.ok { score := 11, feedback := "Trop rapide" })
        (Except.ok { text := some "resp" }) =
      Except.ok { score := 11, feedback := "Trop rapide" } ∧
    ¬((11 : ℚ) ≤ 10) :=
  ⟨rfl, by norm_num⟩

/-- C7 (amended): a successful `checkPronunciation` call returns the parsed
remote payload unchanged — `feedback` is text and `score` is whatever number
the remote produced; the range `0` to `10` is requested in the prompt but not
enforced by the code, so it holds exactly when the remote's score satisfies
it. -/
theorem c7_pronunciation_passthrough
    (parseScore : String → Except GeminiService.CallError GeminiService.ScoreFeedback)
    (t : String) (out : GeminiService.ScoreFeedback)
    (h : parseScore t = Except.ok out) :
    GeminiService.checkPronunciation parseScore
      (Except.ok { text := some t }) = Except.ok out := by
  simp [GeminiService.checkPronunciation, h]

/-- C7 witness: a parsed payload with score `7` is returned unchanged. -/
theorem c7_pronunciation_passthrough_witness :
    GeminiService.checkPronunciation
        (fun _ => Except.ok { score := 7, feedback := "Bien" })
        (Except.ok { text := some "resp" }) =
      Except.ok { score := 7, feedback := "Bien" } :=
  c7_pronunciation_passthrough _ "resp" _ rfl

/-- C8: one run of `generateSpeech` issues exactly one remote request, never
propagates an exception (its result type is an `Option`, the `catch` branch of
the source), and degrades to `none` both when the request rejects and when the
fulfilled response carries no audio payload. -/
theorem c8_speech_degrades
    (remote : Nat → Except GeminiService.CallError GeminiService.TTSResponse) :
    (GeminiService.generateSpeechRun remote).2 = 1 ∧
    (∀ e, remote 0 = Except.error e →
      (GeminiService.generateSpeechRun remote).1 = none) ∧
    (∀ resp, remote 0 = Except.ok resp → GeminiService.ttsBase64Audio resp = none →
      (GeminiService.generateSpeechRun remote).1 = none) := by
  refine ⟨rfl, ?_, ?_⟩
  · intro e he
    simp [GeminiService.generateSpeechRun, GeminiService.generateSpeech, he]
  · intro resp he hn
    simp [GeminiService.generateSpeechRun, GeminiService.generateSpeech, he, hn]

/-- C8 witness: a rejected TTS request produces `none` after exactly one
request. -/
theorem c8_speech_degrades_witness :
    (GeminiService.generateSpeechRun
        (fun _ => Except.error GeminiService.CallError.remote)).1 = none ∧
    (GeminiService.generateSpeechRun
        (fun _ => Except.error GeminiService.CallError.remote)).2 = 1 :=
  ⟨(c8_speech_degrades _).2.1 GeminiService.CallError.remote rfl,
   (c8_speech_degrades _).1⟩

/-- C9: in the chat view, `stopRecording true` (send) and `stopRecording
false` (cancel) are the same transformation of the recorder state — both
branches call the recorder's `stop`, whose `onstop` handler sends the recorded
audio as a message — so the result is independent of `shouldSend`. -/
theorem c9_stop_send_cancel_equal (s : ChatView.ChatRecState) :
    ChatView.chatStopRecording true s = ChatView.chatStopRecording false s ∧
    (∀ r, s.mediaRecorder = some r → s.isRecording = true →
      (ChatView.chatStopRecording false s).sentAudioMessages =
        s.sentAudioMessages ++ [s.chunks.flatten]) := by
  constructor
  · unfold ChatView.chatStopRecording
    cases s.mediaRecorder <;> cases s.isRecording <;> simp
  · intro r hm hr
    unfold ChatView.chatStopRecording
    rw [hm, hr]
    simp

/-- C9 witness: on a concrete recording state, cancel equals send and the
cancel path still sends the flattened audio message. -/
theorem c9_stop_send_cancel_equal_witness :
    ChatView.chatStopRecording true
        { mediaRecorder := some 0, isRecording := true, chunks := [[1, 2], [3]],
          activeRecorders := [0], timer := some 5, sentAudioMessages := [] } =
      ChatView.chatStopRecording false
        { mediaRecorder := some 0, isRecording := true, chunks := [[1, 2], [3]],
          activeRecorders := [0], timer := some 5, sentAudioMessages := [] } ∧
    (ChatView.chatStopRecording false
        { mediaRecorder := some 0, isRecording := true, chunks := [[1, 2], [3]],
          activeRecorders := [0], timer := some 5,
          sentAudioMessages := [] }).sentAudioMessages = [[1, 2, 3]] :=
  ⟨(c9_stop_send_cancel_equal _).1,
   by simpa using (c9_stop_send_cancel_equal _).2 0 rfl rfl⟩

/-- C10: once `checkAnswers` has run on a loaded lesson (which records a
`LessonResult` and sets `isSaved` on its first run), any further `checkAnswers`
call — at any later clock value — leaves the whole state, in particular the
in-memory history and the stored history, unchanged. -/
theorem c10_check_answers_idempotent (s : LessonView.LessonState)
    (lesson : LessonView.GeneratedLesson) (now now2 : Nat)
    (hL : s.lesson = some lesson) :
    (LessonView.checkAnswers now s).isSaved = true ∧
    LessonView.checkAnswers now2 (LessonView.checkAnswers now s) =
      LessonView.checkAnswers now s ∧
    (LessonView.checkAnswers now2 (LessonView.checkAnswers now s)).history =
      (LessonView.checkAnswers now s).history ∧
    (LessonView.checkAnswers now2 (LessonView.checkAnswers now s)).localStore =
      (LessonView.checkAnswers now s).localStore := by
  cases hS : s.isSaved <;>
    simp [LessonView.checkAnswers, hL, hS]

/-- C10 witness: a second `checkAnswers` on a one-question lesson changes
nothing. -/
theorem c10_check_answers_idempotent_witness :
    (LessonView.checkAnswers 5
      { lesson := some { content := "c",
                         quiz := [{ question := "q", options := ["a", "b"],
                                    correctAnswer := "a", explanation := "e" }] },
        quizAnswers := [(0, "a")], showResults := false, isSaved := false,
        selectedTopic := "Travel Basics", selectedLevel := "Beginner",
        history := [], localStore := [] }).isSaved = true ∧
    LessonView.checkAnswers 9 (LessonView.checkAnswers 5
      { lesson := some { content := "c",
                         quiz := [{ question := "q", options := ["a", "b"],
                                    correctAnswer := "a", explanation := "e" }] },
        quizAnswers := [(0, "a")], showResults := false, isSaved := false,
        selectedTopic := "Travel Basics", selectedLevel := "Beginner",
        history := [], localStore := [] }) =
      LessonView.checkAnswers 5
      { lesson := some { content := "c",
                         quiz := [{ question := "q", options := ["a", "b"],
                                    correctAnswer := "a", explanation := "e" }] },
        quizAnswers := [(0, "a")], showResults := false, isSaved := false,
        selectedTopic := "Travel Basics", selectedLevel := "Beginner",
        history := [], localStore := [] } :=
  ⟨(c10_check_answers_idempotent _ _ 5 9 rfl).1,
   (c10_check_answers_idempotent _ _ 5 9 rfl).2.1⟩
